import Mathlib

/-
Verification of the AUBO trajectory-follower driver
(src/aubo_robot/aubo_controller/script/aubo_controller/driver.py).

The driver's numeric values (joint positions, velocities, accelerations,
times in seconds) are modelled as exact rationals; lists model the Python
lists.  A Python function that can raise (empty trajectory indexing,
running off the end of the segment-search loop) is rendered with Option,
none standing for the raised exception.
-/

namespace AuboDriver

/- The rational operations of the library are marked irreducible, which
blocks kernel evaluation of concrete samples; restore default
reducibility locally so that concrete runs of the model evaluate. -/
attribute [local semireducible] Rat.add Rat.sub Rat.mul Rat.inv

/-- One timed joint configuration, mirroring trajectory_msgs
JointTrajectoryPoint as the driver uses it: per-joint positions,
velocities and accelerations, plus time_from_start (rospy.Duration,
read through to_sec, here an exact rational number of seconds). -/
structure JointTrajectoryPoint where
  positions : List ℚ
  velocities : List ℚ
  accelerations : List ℚ
  time_from_start : ℚ
deriving DecidableEq

/-- A joint trajectory: the joint-name ordering it was built with and its
ordered waypoints, as in trajectory_msgs JointTrajectory. -/
structure JointTrajectory where
  joint_names : List String
  points : List JointTrajectoryPoint
deriving DecidableEq

/-- JOINT_NAMES, driver.py line 47: the canonical 6-joint ordering. -/
def JOINT_NAMES : List String :=
  ["shoulder_joint", "upperArm_joint", "foreArm_joint",
   "wrist1_joint", "wrist2_joint", "wrist3_joint"]

/-- joint_names, driver.py line 591: built from JOINT_NAMES with an empty
prefix, so it equals JOINT_NAMES. -/
def joint_names : List String := JOINT_NAMES

/-- MAX_VELOCITY, driver.py line 21 (the default for the max_velocity
parameter read in main, line 620). -/
def MAX_VELOCITY : ℚ := 10

/-- math.isinf rendered on the exact-rational model: a rational models a
finite float, so it is never infinite. -/
def isinf (_ : ℚ) : Bool := false

/-- math.isnan rendered on the exact-rational model: a rational models a
finite float, so it is never NaN. -/
def isnan (_ : ℚ) : Bool := false

/-- traj_is_finite, driver.py lines 88-96: every position and velocity of
every point must be neither infinite nor NaN. -/
def traj_is_finite (traj : JointTrajectory) : Bool :=
  traj.points.all fun pt =>
    pt.positions.all (fun p => !(isinf p || isnan p)) &&
    pt.velocities.all (fun v => !(isinf v || isnan v))

/-- has_limited_velocities, driver.py lines 98-103: returns False as soon
as some velocity magnitude exceeds max_velocity (a runtime parameter,
passed here explicitly). -/
def has_limited_velocities (max_velocity : ℚ) (traj : JointTrajectory) : Bool :=
  traj.points.all fun p => p.velocities.all fun v => !(decide (max_velocity < |v|))

/-- has_velocities, driver.py lines 105-109: every point carries as many
velocities as positions. -/
def has_velocities (traj : JointTrajectory) : Bool :=
  traj.points.all fun p => p.velocities.length == p.positions.length

/-- within_tolerance, driver.py lines 111-115: zips the three vectors
(stopping at the shortest, as Python zip does) and fails as soon as some
|a - b| exceeds its tolerance. -/
def within_tolerance : List ℚ → List ℚ → List ℚ → Bool
  | a :: arest, b :: brest, tol :: tolrest =>
    if |a - b| > tol then false else within_tolerance arest brest tolrest
  | _, _, _ => true

/-- reorder_traj_joints, driver.py lines 134-145: builds the index order
of the requested names inside the incoming trajectory's name list and
permutes every point's per-joint arrays accordingly; empty velocity or
acceleration arrays stay empty (Python list truthiness).  The source
indexes with list.index and p.positions[i], which raise on a name or
index miss; the model's getD default 0 is only reached on inputs where
the source raises. -/
def reorder_traj_joints (traj : JointTrajectory) (names : List String) : JointTrajectory :=
  let order := names.map fun j => traj.joint_names.indexOf j
  { joint_names := names,
    points := traj.points.map fun p =>
      { positions := order.map fun i => p.positions.getD i 0,
        velocities :=
          if p.velocities.isEmpty then [] else order.map fun i => p.velocities.getD i 0,
        accelerations :=
          if p.accelerations.isEmpty then [] else order.map fun i => p.accelerations.getD i 0,
        time_from_start := p.time_from_start } }

/-- Coefficient c of the per-joint cubic, driver.py line 156. -/
def cubic_coeff_c (P0 V0 P1 V1 T : ℚ) : ℚ :=
  (-3 * P0 + 3 * P1 - 2 * T * V0 - T * V1) / T ^ 2

/-- Coefficient d of the per-joint cubic, driver.py line 157. -/
def cubic_coeff_d (P0 V0 P1 V1 T : ℚ) : ℚ :=
  (2 * P0 - 2 * P1 + T * V0 + T * V1) / T ^ 3

/-- Position polynomial q[i] = a + b*t + c*t^2 + d*t^3, driver.py line 159
(a = P0 and b = V0, lines 154-155). -/
def cubic_q (P0 V0 P1 V1 T t : ℚ) : ℚ :=
  P0 + V0 * t + cubic_coeff_c P0 V0 P1 V1 T * t ^ 2 + cubic_coeff_d P0 V0 P1 V1 T * t ^ 3

/-- Velocity polynomial qdot[i] = b + 2*c*t + 3*d*t^2, driver.py line 160. -/
def cubic_qdot (P0 V0 P1 V1 T t : ℚ) : ℚ :=
  V0 + 2 * cubic_coeff_c P0 V0 P1 V1 T * t + 3 * cubic_coeff_d P0 V0 P1 V1 T * t ^ 2

/-- Acceleration polynomial qddot[i] = 2*c + 6*d*t, driver.py line 161. -/
def cubic_qddot (P0 V0 P1 V1 T t : ℚ) : ℚ :=
  2 * cubic_coeff_c P0 V0 P1 V1 T + 6 * cubic_coeff_d P0 V0 P1 V1 T * t

/-- interp_cubic, driver.py lines 147-162: T is the segment duration, t
the offset of t_abs from the segment start; q, qdot, qddot are
initialised to [0]*6 and filled for each index below len(p0.positions)
(the driver always passes full 6-joint points, where the model and the
source agree; on longer arrays the source raises).  The result carries
time_from_start = t_abs (rospy.Duration(t_abs), line 162). -/
def interp_cubic (p0 p1 : JointTrajectoryPoint) (t_abs : ℚ) : JointTrajectoryPoint :=
  let T := p1.time_from_start - p0.time_from_start
  let t := t_abs - p0.time_from_start
  { positions := (List.range 6).map fun i =>
      if i < p0.positions.length then
        cubic_q (p0.positions.getD i 0) (p0.velocities.getD i 0)
          (p1.positions.getD i 0) (p1.velocities.getD i 0) T t
      else 0,
    velocities := (List.range 6).map fun i =>
      if i < p0.positions.length then
        cubic_qdot (p0.positions.getD i 0) (p0.velocities.getD i 0)
          (p1.positions.getD i 0) (p1.velocities.getD i 0) T t
      else 0,
    accelerations := (List.range 6).map fun i =>
      if i < p0.positions.length then
        cubic_qddot (p0.positions.getD i 0) (p0.velocities.getD i 0)
          (p1.positions.getD i 0) (p1.velocities.getD i 0) T t
      else 0,
    time_from_start := t_abs }

/-- The segment-search loop of sample_traj, driver.py lines 175-177:
starting from i = 0, advance while points[i+1].time_from_start < t, then
return the pair (points[i], points[i+1]).  Running off the end of the
list (an IndexError in the source) is none. -/
def findSegment : List JointTrajectoryPoint → ℚ →
    Option (JointTrajectoryPoint × JointTrajectoryPoint)
  | p0 :: p1 :: rest, t =>
    if p1.time_from_start < t then findSegment (p1 :: rest) t else some (p0, p1)
  | _, _ => none

/-- sample_traj, driver.py lines 166-178: clamp to a copy of the first
point when t <= 0, to a copy of the last point when t >= the last
point's time_from_start, otherwise cubic-interpolate on the segment
found by the linear scan.  Indexing an empty trajectory (an IndexError
in the source) is none. -/
def sample_traj (traj : JointTrajectory) (t : ℚ) : Option JointTrajectoryPoint :=
  match traj.points with
  | [] => none
  | p :: ps =>
    if t ≤ 0 then some p
    else if (ps.getLastD p).time_from_start ≤ t then some (ps.getLastD p)
    else (findSegment (p :: ps) t).map fun s => interp_cubic s.1 s.2 t

/-- The follower state mutated under following_lock, driver.py lines
390-396: the active goal handle (modelled by the trajectory it carries,
the driver stores and reads back goal_handle.get_goal().trajectory), the
active trajectory, its start time traj_t0, and the waypoint-id offset
first_waypoint_id (initially 10). -/
structure FollowerState where
  goal_handle : Option JointTrajectory
  traj : JointTrajectory
  traj_t0 : ℚ
  first_waypoint_id : ℕ
deriving DecidableEq

/-- The locked tail of on_goal, driver.py lines 472-489: if a goal is
active, cancel it and advance first_waypoint_id by its point count; then
sample the active trajectory at now - traj_t0, force the sample's
time_from_start to 0, insert it at the head of the new goal's points,
reset traj_t0 to now, and install the (mutated) goal as active and
accepted.  none models the IndexError the source would raise sampling an
empty active trajectory. -/
def on_goal_locked (s : FollowerState) (g : JointTrajectory) (now : ℚ) :
    Option FollowerState :=
  let fwid :=
    match s.goal_handle with
    | some prev => s.first_waypoint_id + prev.points.length
    | none => s.first_waypoint_id
  match sample_traj s.traj (now - s.traj_t0) with
  | none => none
  | some sp =>
    let point0 : JointTrajectoryPoint := { sp with time_from_start := 0 }
    let newTraj : JointTrajectory := { g with points := point0 :: g.points }
    some { goal_handle := some newTraj, traj := newTraj,
           traj_t0 := now, first_waypoint_id := fwid }

/-- The outcome on_goal reports through the goal handle. -/
inductive GoalOutcome where
  | rejectedNotConnected
  | rejectedJointNames
  | rejectedNotFinite
  | rejectedNoVelocities
  | rejectedOverLimitVelocities
  | accepted
deriving DecidableEq

/-- Python set equality of two name lists, as in
set(a) != set(b) on driver.py line 445. -/
def same_name_set (a b : List String) : Bool :=
  a.all b.contains && b.all a.contains

/-- on_goal, driver.py lines 434-489.  robot models self.robot (none when
no connection is bound).  The first check is line 439, `if self.robot:`
verbatim: it fires, with the "not connected" error, exactly when a robot
IS bound (the intended `if not self.robot:` sits commented out on line
438).  Then the joint-name set check, the finiteness check, the
velocity-presence check and the velocity-limit check, in source order;
a valid goal is reordered into canonical joint order and spliced in by
the locked tail.  Rejections leave the state unchanged. -/
def on_goal (robot : Option Unit) (max_velocity : ℚ) (s : FollowerState)
    (g : JointTrajectory) (now : ℚ) : Option (GoalOutcome × FollowerState) :=
  if robot.isSome then some (.rejectedNotConnected, s)
  else if !same_name_set g.joint_names joint_names then some (.rejectedJointNames, s)
  else if !traj_is_finite g then some (.rejectedNotFinite, s)
  else if !has_velocities g then some (.rejectedNoVelocities, s)
  else if !has_limited_velocities max_velocity g then
    some (.rejectedOverLimitVelocities, s)
  else
    match on_goal_locked s (reorder_traj_joints g joint_names) now with
    | some s1 => some (.accepted, s1)
    | none => none

/-- STOP_DURATION, driver.py line 496: 0.5 seconds. -/
def STOP_DURATION : ℚ := 1 / 2

/-- The active-goal branch of on_cancel, driver.py lines 494-510: point0
is the sample at now - traj_t0 with its time forced to 0; point1 is the
sample STOP_DURATION ahead with velocities and accelerations forced to
[0]*6 and its time set to STOP_DURATION; the active trajectory becomes
exactly {point0, point1} anchored at now, and the goal is canceled and
cleared.  none models the IndexError of sampling an empty trajectory. -/
def on_cancel_active (s : FollowerState) (now : ℚ) : Option FollowerState :=
  match sample_traj s.traj (now - s.traj_t0),
        sample_traj s.traj (now - s.traj_t0 + STOP_DURATION) with
  | some sp0, some sp1 =>
    let point0 : JointTrajectoryPoint := { sp0 with time_from_start := 0 }
    let point1 : JointTrajectoryPoint :=
      { sp1 with velocities := List.replicate 6 0,
                 accelerations := List.replicate 6 0,
                 time_from_start := STOP_DURATION }
    some { goal_handle := none,
           traj := { joint_names := joint_names, points := [point0, point1] },
           traj_t0 := now,
           first_waypoint_id := s.first_waypoint_id }
  | _, _ => none

/-- on_cancel, driver.py lines 491-512: the deceleration splice runs only
when the canceled handle is the active one (Python identity comparison,
modelled by the flag); a stale handle is merely marked canceled, with no
state change. -/
def on_cancel (s : FollowerState) (is_active_goal : Bool) (now : ℚ) :
    Option FollowerState :=
  if is_active_goal then on_cancel_active s now else some s

/-- joint_goal_tolerances, driver.py line 382: 0.05 rad for each of the
six joints. -/
def joint_goal_tolerances : List ℚ := [1/20, 1/20, 1/20, 1/20, 1/20, 1/20]

/-- The final-point tolerance check of the update timer, driver.py lines
541-544: last_point is self.traj.points[-1]; the hardware read
`state = self.robot.get_joint_states()` is commented out on line 542 and
replaced by `state = last_point` on line 543, so the check on line 544
compares the final waypoint's positions with themselves.  none models
indexing an empty trajectory. -/
def update_position_in_tol (traj : JointTrajectory) : Option Bool :=
  traj.points.getLast?.map fun last_point =>
    within_tolerance last_point.positions last_point.positions joint_goal_tolerances

/-- Declared total length of the packet at the head of the buffer: the
4-byte big-endian unsigned field read by struct.unpack_from("!IB", buf)
on driver.py line 362 (the fifth byte, the type tag, does not drive
framing).  Bytes are naturals below 256. -/
def declared_len (buf : List ℕ) : ℕ :=
  ((buf.getD 0 0 * 256 + buf.getD 1 0) * 256 + buf.getD 2 0) * 256 + buf.getD 3 0

/-- The packet-extraction loop of URConnection.__run, driver.py lines
360-368: while at least 48 bytes are buffered, read the declared length;
if the buffer holds at least that many bytes, split the packet off the
front, otherwise stop and await more bytes.  The fuel argument bounds
the number of loop iterations (the source loop can spin forever on a
declared length of 0); every claim is settled with sufficient fuel.
Returns the extracted packets in order and the remaining buffer. -/
def extract_packets : ℕ → List ℕ → List (List ℕ) × List ℕ
  | 0, buf => ([], buf)
  | fuel + 1, buf =>
    if 48 ≤ buf.length then
      let packet_length := declared_len buf
      if packet_length ≤ buf.length then
        let rest := extract_packets fuel (buf.drop packet_length)
        (buf.take packet_length :: rest.1, rest.2)
      else ([], buf)
    else ([], buf)

/-- The robot execution mode carried by a decoded state packet.  The
driver only tests membership in {RobotMode.READY, RobotMode.RUNNING}
(driver.py line 324); every other mode behaves alike and is collapsed
into one constructor. -/
inductive RobotMode where
  | ready
  | running
  | currentlyOther
deriving DecidableEq

/-- The connection state machine's states, driver.py lines 216-219. -/
inductive ConnectionState where
  | disconnected
  | connected
  | readyToProgram
  | executing
deriving DecidableEq

/-- The part of a decoded RobotState packet that __on_packet's safety
check and state machine consume: the real_robot_enabled flag and the
robot mode (state.robot_mode_data, driver.py lines 284 and 324). -/
structure RobotModeData where
  real_robot_enabled : Bool
  robot_mode : RobotMode
deriving DecidableEq

/-- can_execute, driver.py line 324: the mode is READY or RUNNING. -/
def can_execute (m : RobotMode) : Bool :=
  m == .ready || m == .running

/-- Result of processing one packet: the new connection state and which
triggers fired. -/
structure PacketEffects where
  state : ConnectionState
  ready_trigger : Bool
  halted_trigger : Bool
deriving DecidableEq

/-- Outcome of delivering one buffered packet to __on_packet as the
source executes it: either the call died in a NameError (leaving the
connection state as it was, since the exception propagates before any
assignment to robot_state), or it produced the interlock/state-machine
effects. -/
inductive PacketOutcome where
  | nameError (state_after : ConnectionState)
  | effects (e : PacketEffects)
deriving DecidableEq

/-- URConnection.__on_packet as the source actually executes, driver.py
line 278: its first statement, `state = RobotState.unpack(buf)`,
references RobotState, a name bound nowhere in driver.py — and neither
are IOStates (line 300), MULT_analog_robotstate (lines 308-317),
pub_io_states (line 320; its publisher is commented out at line 44) or
RobotMode (line 324).  Every call therefore raises NameError on its
first statement, before the safety interlock (lines 284-287) or the
mode state machine (lines 323-335) can run, whatever the packet
holds. -/
def on_packet (s : ConnectionState) (_pkt : RobotModeData) : PacketOutcome :=
  .nameError s

/-- Processing a packet stream as __run does, driver.py line 366:
__on_packet is called with no exception handler around it, so a raised
NameError propagates out of __run and kills the read thread — the rest
of the stream is never processed.  Threads the connection state and
counts the ready-to-program trigger firings. -/
def run_packets (s : ConnectionState) (count : ℕ) :
    List RobotModeData → ConnectionState × ℕ
  | [] => (s, count)
  | pkt :: rest =>
    match on_packet s pkt with
    | .nameError s1 => (s1, count)
    | .effects e =>
      run_packets e.state (count + if e.ready_trigger then 1 else 0) rest

/-- The safety interlock and mode state machine as written at driver.py
lines 284-287 and 323-335: a packet whose real_robot_enabled flag is
false is fatal (logfatal and sys.exit(1), modelled as none); otherwise
CONNECTED moves to READY_TO_PROGRAM (firing the ready-to-program
trigger) on a READY or RUNNING mode, READY_TO_PROGRAM falls back to
CONNECTED on any other mode, and EXECUTING falls back to CONNECTED
(firing the halted trigger) on any other mode.  In the source this text
is dead code — every __on_packet call raises NameError before reaching
it (see on_packet) — so this definition records what the unreachable
lines would do, which is also what the spec describes. -/
def mode_machine_step (s : ConnectionState) (pkt : RobotModeData) :
    Option PacketEffects :=
  if !pkt.real_robot_enabled then none
  else some <|
    if s == .connected then
      if can_execute pkt.robot_mode then ⟨.readyToProgram, true, false⟩
      else ⟨s, false, false⟩
    else if s == .readyToProgram then
      if !can_execute pkt.robot_mode then ⟨.connected, false, false⟩
      else ⟨s, false, false⟩
    else if s == .executing then
      if !can_execute pkt.robot_mode then ⟨.connected, false, true⟩
      else ⟨s, false, false⟩
    else ⟨s, false, false⟩

/-- Running the written (dead-code) state machine over a packet stream,
threading the connection state and counting how often the
ready-to-program trigger fired; none if some packet would hit the fatal
interlock. -/
def mode_machine_run (s : ConnectionState) (pkts : List RobotModeData) :
    Option (ConnectionState × ℕ) :=
  pkts.foldlM
    (fun acc pkt => (mode_machine_step acc.1 pkt).map fun e =>
      (e.state, acc.2 + if e.ready_trigger then 1 else 0))
    (s, 0)

/-- Adjacent waypoint times are non-decreasing (the ordering side of the
data-model invariant on trajectories). -/
def times_sorted : List JointTrajectoryPoint → Bool
  | p :: q :: rest =>
    decide (p.time_from_start ≤ q.time_from_start) && times_sorted (q :: rest)
  | _ => true

/-- The data-model invariant on a trajectory: at least one waypoint, the
first at time_from_start 0, and non-decreasing times. -/
def traj_invariant (traj : JointTrajectory) : Prop :=
  traj.points.head?.map (fun p => p.time_from_start) = some 0 ∧
  times_sorted traj.points = true

/-- The last waypoint's time_from_start (the trajectory's span;
0 for an empty trajectory). -/
def lastTime (traj : JointTrajectory) : ℚ :=
  match traj.points with
  | [] => 0
  | p :: ps => (ps.getLastD p).time_from_start

/-- Six zeros, the [0]*6 idiom of the driver. -/
def zero6 : List ℚ := [0, 0, 0, 0, 0, 0]

/-- Six ones, a concrete joint target. -/
def ones6 : List ℚ := [1, 1, 1, 1, 1, 1]

/-- The stationary hold waypoint init_traj_from_robot installs,
driver.py lines 422-427. -/
def hold_point : JointTrajectoryPoint := ⟨zero6, zero6, zero6, 0⟩

/-- The stationary hold trajectory, driver.py lines 419-427. -/
def hold_traj : JointTrajectory := ⟨joint_names, [hold_point]⟩

/-- A previously accepted goal (one waypoint), for exercising the
replacement path. -/
def ex_prev_goal : JointTrajectory := ⟨joint_names, [hold_point]⟩

/-- A follower state with an active goal, the hold trajectory installed
at time 0 and the initial waypoint-id offset. -/
def ex_active_state : FollowerState := ⟨some ex_prev_goal, hold_traj, 0, 10⟩

/-- A valid incoming goal: canonical joint names, finite values,
velocities present and below the limit. -/
def ex_goal : JointTrajectory := ⟨JOINT_NAMES, [⟨ones6, zero6, zero6, 2⟩]⟩

/-- The trajectory on_goal installs when ex_goal replaces the active goal
of ex_active_state at time 1: the time-0 setpoint spliced ahead of the
reordered goal points. -/
def ex_new_traj : JointTrajectory :=
  ⟨JOINT_NAMES, [hold_point, ⟨ones6, zero6, zero6, 2⟩]⟩

/-- The follower state after that replacement: the new trajectory active
and accepted, traj_t0 reset to 1, first_waypoint_id advanced by the
replaced goal's single point. -/
def ex_accepted_state : FollowerState := ⟨some ex_new_traj, ex_new_traj, 1, 11⟩

/-- The follower state after canceling the active goal of
ex_active_state at time 1: the two-point deceleration trajectory,
no goal. -/
def ex_canceled_state : FollowerState :=
  ⟨none, ⟨joint_names, [hold_point, ⟨zero6, zero6, zero6, 1/2⟩]⟩, 1, 10⟩

/-- First waypoint of the clamping counterexample trajectory. -/
def cex_p0 : JointTrajectoryPoint := ⟨zero6, zero6, zero6, 0⟩

/-- Last waypoint of the clamping counterexample trajectory: it also has
time_from_start 0 but different positions. -/
def cex_p1 : JointTrajectoryPoint := ⟨ones6, zero6, zero6, 0⟩

/-- A two-point trajectory whose waypoints both sit at time 0: it
satisfies nonempty-ness (and even the non-decreasing-time, first-at-0
data-model invariant), yet its first and last waypoints differ. -/
def cex_traj : JointTrajectory := ⟨joint_names, [cex_p0, cex_p1]⟩

/-- A well-formed two-segment trajectory for sampling-safety runs:
times 0 and 1. -/
def safe_traj : JointTrajectory :=
  ⟨joint_names, [⟨zero6, zero6, zero6, 0⟩, ⟨ones6, zero6, zero6, 1⟩]⟩

/-- Boundary waypoint r0 for the acceleration-jump run: at rest at 0. -/
def acc_r0 : JointTrajectoryPoint := ⟨zero6, zero6, zero6, 0⟩

/-- Boundary waypoint r1: all joints at 1 rad with zero velocity at
time 1. -/
def acc_r1 : JointTrajectoryPoint := ⟨ones6, zero6, zero6, 1⟩

/-- Boundary waypoint r2: holding 1 rad at time 2. -/
def acc_r2 : JointTrajectoryPoint := ⟨ones6, zero6, zero6, 2⟩

/-- A complete 60-byte frame: declared length 60 (bytes 0 0 0 60), a
type byte, and 55 payload bytes. -/
def ex_frame60 : List ℕ := 0 :: 0 :: 0 :: 60 :: 5 :: List.replicate 55 1

/-- Ten trailing bytes of a following, incomplete frame. -/
def ex_trailing10 : List ℕ := List.replicate 10 7

/-- A complete 20-byte frame: declared length 20 (bytes 0 0 0 20), a
type byte, and 15 payload bytes; shorter than the 48-byte floor. -/
def ex_frame20 : List ℕ := 0 :: 0 :: 0 :: 20 :: 5 :: List.replicate 15 2

/-- A 48-byte buffer whose declared length (0xFFFFFFFF) far exceeds the
bytes on hand. -/
def ex_starved_buf : List ℕ := List.replicate 48 255


/-- Auxiliary: any vector is within nonnegative tolerances of itself. -/
theorem within_tolerance_self (xs tol : List ℚ) (h : ∀ x ∈ tol, 0 ≤ x) :
    within_tolerance xs xs tol = true := by
  induction xs generalizing tol with
  | nil => cases tol <;> rfl
  | cons a arest ih =>
    cases tol with
    | nil => rfl
    | cons t trest =>
      have ht : ¬ (|a - a| > t) := by
        simp only [sub_self, abs_zero, not_lt]
        exact h t (List.mem_cons_self t trest)
      simp only [within_tolerance]
      rw [if_neg ht]
      exact ih trest fun x hx => h x (List.mem_cons_of_mem t hx)

/-- C4: the final-point tolerance check of the periodic update can never
report "out of tolerance": the source substitutes the final waypoint
itself for the arm's reported state (state = last_point, driver.py line
543), so the check compares the final waypoint's positions with
themselves, which always passes the 0.05 rad tolerances whatever the arm
is actually doing — contradicting the claim that the arm's reported
position is checked against the final waypoint. -/
theorem C4_final_tolerance_check_is_self_comparison (traj : JointTrajectory)
    (h : traj.points ≠ []) : update_position_in_tol traj = some true := by
  rw [update_position_in_tol, List.getLast?_eq_getLast traj.points h]
  simp only [Option.map_some']
  congr 1
  apply within_tolerance_self
  intro x hx
  have hx20 : x = 1 / 20 := by simpa [joint_goal_tolerances] using hx
  subst hx20
  norm_num

/-- Witness for C4 at the stationary hold trajectory. -/
theorem C4_witness : update_position_in_tol hold_traj = some true :=
  C4_final_tolerance_check_is_self_comparison hold_traj (by decide)

/-- C7: the Ready, Running, Ready scenario cannot occur in the source:
__on_packet dies in a NameError on its very first statement (RobotState
is unbound in driver.py), so delivering the stream from Connected
strands the connection state at Connected with zero ready-to-program
triggers fired — while the state machine written (unreachably) at lines
323-335, which is what the claim and the spec describe, would end in
ReadyToProgram with the trigger fired exactly once and no retrigger on
the Running packet. -/
theorem C7_mode_machine_unreachable :
    run_packets .connected 0 [⟨true, .ready⟩, ⟨true, .running⟩, ⟨true, .ready⟩] =
      (.connected, 0) ∧
    mode_machine_run .connected [⟨true, .ready⟩, ⟨true, .running⟩, ⟨true, .ready⟩] =
      some (.readyToProgram, 1) :=
  ⟨rfl, by decide⟩

/-- C10: the read loop only attempts extraction with at least 48 bytes
buffered: below that, no packet is decoded and the buffer is kept,
even when it already holds a complete frame of declared length
below 48. -/
theorem C10_no_extraction_below_48_bytes (fuel : ℕ) (buf : List ℕ)
    (h : buf.length < 48) : extract_packets fuel buf = ([], buf) := by
  cases fuel with
  | zero => rfl
  | succ n =>
    simp only [extract_packets]
    rw [if_neg (Nat.not_le.mpr h)]

/-- Witness for C10: a complete 20-byte frame (declared length 20, all 20
bytes present) yields no packet while the buffer is below 48 bytes. -/
theorem C10_witness :
    declared_len ex_frame20 = 20 ∧ ex_frame20.length = 20 ∧
    extract_packets 5 ex_frame20 = ([], ex_frame20) :=
  ⟨by decide, by decide,
   C10_no_extraction_below_48_bytes 5 ex_frame20 (by decide)⟩

/-- C6: with at least 48 bytes buffered, extraction stops (keeping the
whole buffer) whenever the declared 4-byte big-endian total length
exceeds the bytes on hand; and a buffer of one complete 60-byte frame
followed by 10 trailing bytes yields exactly one packet with the 10
trailing bytes retained. -/
theorem C6_extract_waits_for_declared_length (fuel : ℕ) (buf : List ℕ)
    (h48 : 48 ≤ buf.length) (hshort : buf.length < declared_len buf) :
    extract_packets fuel buf = ([], buf) ∧
    extract_packets 2 (ex_frame60 ++ ex_trailing10) = ([ex_frame60], ex_trailing10) := by
  refine ⟨?_, by decide⟩
  cases fuel with
  | zero => rfl
  | succ n =>
    simp only [extract_packets]
    rw [if_pos h48, if_neg (Nat.not_le.mpr hshort)]

/-- Witness for C6 at a 48-byte buffer whose declared length 0xFFFFFFFF
starves the bytes on hand. -/
theorem C6_witness :
    extract_packets 3 ex_starved_buf = ([], ex_starved_buf) ∧
    extract_packets 2 (ex_frame60 ++ ex_trailing10) = ([ex_frame60], ex_trailing10) :=
  C6_extract_waits_for_declared_length 3 ex_starved_buf (by decide) (by decide)

/-- C5 counterexample: a two-point trajectory whose last waypoint also
sits at time 0 but differs from the first; at t = 0 both clamp clauses
of the claim apply, and sample_traj returns the first waypoint, not the
last — so the claim's last-waypoint clause fails as stated. -/
theorem C5_counterexample_overlapping_clamp :
    cex_traj.points = [cex_p0, cex_p1] ∧
    cex_p1.time_from_start ≤ 0 ∧
    sample_traj cex_traj 0 = some cex_p0 ∧
    cex_p0 ≠ cex_p1 :=
  ⟨rfl, by decide, by decide, by decide⟩

/-- C5 as amended: sample_traj returns a copy of the first waypoint
whenever t ≤ 0, and a copy of the last waypoint whenever t > 0 and t is
at least the last waypoint's time_from_start (at t ≤ 0 the first-point
clause takes precedence). -/
theorem C5_clamp_amended (traj : JointTrajectory) (p : JointTrajectoryPoint)
    (ps : List JointTrajectoryPoint) (t : ℚ) (hpts : traj.points = p :: ps) :
    (t ≤ 0 → sample_traj traj t = some p) ∧
    (0 < t → (ps.getLastD p).time_from_start ≤ t →
      sample_traj traj t = some (ps.getLastD p)) := by
  constructor
  · intro ht
    simp only [sample_traj, hpts]
    rw [if_pos ht]
  · intro ht hlast
    simp only [sample_traj, hpts]
    rw [if_neg (not_le.mpr ht), if_pos hlast]

/-- Witness for C5 as amended, on both clamp sides of a two-point
trajectory spanning times 0 to 1. -/
theorem C5_amended_witness :
    sample_traj safe_traj (-1) = some ⟨zero6, zero6, zero6, 0⟩ ∧
    sample_traj safe_traj 2 = some ⟨ones6, zero6, zero6, 1⟩ := by
  have h1 := C5_clamp_amended safe_traj ⟨zero6, zero6, zero6, 0⟩
    [⟨ones6, zero6, zero6, 1⟩] (-1) rfl
  have h2 := C5_clamp_amended safe_traj ⟨zero6, zero6, zero6, 0⟩
    [⟨ones6, zero6, zero6, 1⟩] 2 rfl
  exact ⟨h1.1 (by decide), h2.2 (by decide) (by decide)⟩

/-- C1: the connection check at the head of on_goal is inverted in the
source (`if self.robot:` with the intended `if not self.robot:`
commented out): with a connection bound a valid goal is rejected with
the "not connected" report, and with no connection bound the check does
not reject — the same valid goal sails through and is accepted. -/
theorem C1_connection_check_inverted :
    on_goal (some ()) MAX_VELOCITY ex_active_state ex_goal 1 =
      some (.rejectedNotConnected, ex_active_state) ∧
    on_goal none MAX_VELOCITY ex_active_state ex_goal 1 =
      some (.accepted, ex_accepted_state) :=
  ⟨by decide, by decide⟩


/-- Auxiliary: the segment-search loop finds a segment whenever the head
waypoint lies strictly before t and the last waypoint's time is at least
t; the segment found brackets t (strictly from below). -/
theorem findSegment_covers (ps : List JointTrajectoryPoint) :
    ∀ (p : JointTrajectoryPoint) (t : ℚ), p.time_from_start < t → ps ≠ [] →
      t ≤ (ps.getLastD p).time_from_start →
      ∃ a b, findSegment (p :: ps) t = some (a, b) ∧
        a.time_from_start < t ∧ t ≤ b.time_from_start := by
  induction ps with
  | nil => intro p t _ hne _; exact absurd rfl hne
  | cons q rest ih =>
    intro p t hp _ hlast
    by_cases hq : q.time_from_start < t
    · cases rest with
      | nil =>
        exfalso
        rw [List.getLastD_cons, List.getLastD_nil] at hlast
        exact absurd hq (not_lt.mpr hlast)
      | cons q2 rest2 =>
        rw [List.getLastD_cons] at hlast
        obtain ⟨a, b, hfind, ha, hb⟩ := ih q t hq (by simp) hlast
        refine ⟨a, b, ?_, ha, hb⟩
        simp only [findSegment]
        rw [if_pos hq]
        exact hfind
    · refine ⟨p, q, ?_, hp, not_lt.mp hq⟩
      simp only [findSegment]
      rw [if_neg hq]

/-- C8: sampling a trajectory that satisfies the data-model invariant
(first waypoint at time 0, non-decreasing times) at any t within its own
time range is safe: sample_traj is total there (no out-of-bounds access,
modelled by isSome), and in the interior the segment search succeeds
with a segment that brackets t strictly from below, so the cubic's
denominator, the segment duration, is nonzero. -/
theorem C8_sampling_in_range_is_safe (traj : JointTrajectory) (t : ℚ)
    (hinv : traj_invariant traj) (h0 : 0 ≤ t) (_hspan : t ≤ lastTime traj) :
    (sample_traj traj t).isSome = true ∧
    (0 < t → t < lastTime traj →
      ∃ a b, findSegment traj.points t = some (a, b) ∧
        a.time_from_start < t ∧ t ≤ b.time_from_start ∧
        a.time_from_start < b.time_from_start) := by
  obtain ⟨hhead, hsort⟩ := hinv
  cases hpts : traj.points with
  | nil => rw [hpts] at hhead; simp at hhead
  | cons p ps =>
    rw [hpts] at hhead
    have hp0 : p.time_from_start = 0 := by
      simpa using hhead
    have hlast_eq : lastTime traj = (ps.getLastD p).time_from_start := by
      rw [lastTime, hpts]
    by_cases hle : t ≤ 0
    · refine ⟨?_, fun hpos _ => absurd hle (not_le.mpr hpos)⟩
      simp only [sample_traj, hpts]
      rw [if_pos hle]
      rfl
    · have hpos : 0 < t := not_le.mp hle
      by_cases hlastle : (ps.getLastD p).time_from_start ≤ t
      · refine ⟨?_, fun _ hlt => absurd (hlast_eq ▸ hlt) (not_lt.mpr hlastle)⟩
        simp only [sample_traj, hpts]
        rw [if_neg hle, if_pos hlastle]
        rfl
      · have htlt : t < (ps.getLastD p).time_from_start := not_le.mp hlastle
        have hne : ps ≠ [] := by
          intro hnil
          rw [hnil, List.getLastD_nil, hp0] at htlt
          exact absurd htlt (not_lt.mpr h0)
        obtain ⟨a, b, hfind, ha, hb⟩ :=
          findSegment_covers ps p t (by rw [hp0]; exact hpos) hne (le_of_lt htlt)
        constructor
        · simp only [sample_traj, hpts]
          rw [if_neg hle, if_neg hlastle, hfind]
          rfl
        · intro _ _
          exact ⟨a, b, hfind, ha, hb, lt_of_lt_of_le ha hb⟩

/-- Witness for C8: sampling the two-segment safe_traj in the middle of
its range. -/
theorem C8_witness :
    (sample_traj safe_traj (1/2)).isSome = true ∧
    (0 < (1/2 : ℚ) → (1/2 : ℚ) < lastTime safe_traj →
      ∃ a b, findSegment safe_traj.points (1/2) = some (a, b) ∧
        a.time_from_start < 1/2 ∧ (1/2 : ℚ) ≤ b.time_from_start ∧
        a.time_from_start < b.time_from_start) :=
  C8_sampling_in_range_is_safe safe_traj (1/2)
    ⟨by decide, by decide⟩ (by decide) (by decide)

/-- Auxiliary: the position cubic hits the right endpoint position at the
full segment duration. -/
theorem cubic_q_boundary (P0 V0 P1 V1 T : ℚ) (hT : T ≠ 0) :
    cubic_q P0 V0 P1 V1 T T = P1 := by
  unfold cubic_q cubic_coeff_c cubic_coeff_d
  field_simp
  ring

/-- Auxiliary: the velocity cubic hits the right endpoint velocity at the
full segment duration. -/
theorem cubic_qdot_boundary (P0 V0 P1 V1 T : ℚ) (hT : T ≠ 0) :
    cubic_qdot P0 V0 P1 V1 T T = V1 := by
  unfold cubic_qdot cubic_coeff_c cubic_coeff_d
  field_simp
  ring

/-- Auxiliary: the position cubic starts at the left endpoint position. -/
theorem cubic_q_start (P0 V0 P1 V1 T : ℚ) : cubic_q P0 V0 P1 V1 T 0 = P0 := by
  simp [cubic_q]

/-- Auxiliary: the velocity cubic starts at the left endpoint velocity. -/
theorem cubic_qdot_start (P0 V0 P1 V1 T : ℚ) : cubic_qdot P0 V0 P1 V1 T 0 = V0 := by
  simp [cubic_qdot]

/-- Auxiliary: getD agrees with getElem in bounds. -/
theorem getD_eq_getElem_of_lt (l : List ℚ) (i : ℕ) (h : i < l.length) :
    l.getD i 0 = l[i] := by
  rw [List.getD_eq_getElem?_getD, List.getElem?_eq_getElem h]
  rfl

/-- C9: on two adjacent segments with positive durations (waypoints p0,
p1, p2 of full 6-joint points), the earlier segment's cubic evaluated at
the shared boundary time reproduces the shared waypoint's positions and
velocities exactly, and so does the later segment's cubic at the same
instant — C¹ continuity — while the accelerations of the two cubics at
a boundary can differ, witnessed on a concrete rest-to-rest pair of
segments. -/
theorem C9_boundary_continuity (p0 p1 p2 : JointTrajectoryPoint)
    (h01 : p0.time_from_start < p1.time_from_start)
    (_h12 : p1.time_from_start < p2.time_from_start)
    (hl0 : p0.positions.length = 6) (hl1 : p1.positions.length = 6)
    (hv1 : p1.velocities.length = 6) :
    ((interp_cubic p0 p1 p1.time_from_start).positions = p1.positions ∧
     (interp_cubic p0 p1 p1.time_from_start).velocities = p1.velocities ∧
     (interp_cubic p1 p2 p1.time_from_start).positions = p1.positions ∧
     (interp_cubic p1 p2 p1.time_from_start).velocities = p1.velocities) ∧
    (interp_cubic acc_r0 acc_r1 acc_r1.time_from_start).accelerations ≠
      (interp_cubic acc_r1 acc_r2 acc_r1.time_from_start).accelerations := by
  have hTne : p1.time_from_start - p0.time_from_start ≠ 0 :=
    sub_ne_zero.mpr (ne_of_gt h01)
  refine ⟨⟨?_, ?_, ?_, ?_⟩, by decide⟩
  · apply List.ext_getElem
    · simp [interp_cubic, hl1]
    · intro i hi1 hi2
      simp only [interp_cubic, List.getElem_map, List.getElem_range]
      have hi6 : i < 6 := by simpa [interp_cubic] using hi1
      rw [if_pos (hl0 ▸ hi6), cubic_q_boundary _ _ _ _ _ hTne]
      exact getD_eq_getElem_of_lt _ _ (hl1 ▸ hi6)
  · apply List.ext_getElem
    · simp [interp_cubic, hv1]
    · intro i hi1 hi2
      simp only [interp_cubic, List.getElem_map, List.getElem_range]
      have hi6 : i < 6 := by simpa [interp_cubic] using hi1
      rw [if_pos (hl0 ▸ hi6), cubic_qdot_boundary _ _ _ _ _ hTne]
      exact getD_eq_getElem_of_lt _ _ (hv1 ▸ hi6)
  · apply List.ext_getElem
    · simp [interp_cubic, hl1]
    · intro i hi1 hi2
      simp only [interp_cubic, List.getElem_map, List.getElem_range, sub_self]
      have hi6 : i < 6 := by simpa [interp_cubic] using hi1
      rw [if_pos (hl1 ▸ hi6), cubic_q_start]
      exact getD_eq_getElem_of_lt _ _ (hl1 ▸ hi6)
  · apply List.ext_getElem
    · simp [interp_cubic, hv1]
    · intro i hi1 hi2
      simp only [interp_cubic, List.getElem_map, List.getElem_range, sub_self]
      have hi6 : i < 6 := by simpa [interp_cubic] using hi1
      rw [if_pos (hl1 ▸ hi6), cubic_qdot_start]
      exact getD_eq_getElem_of_lt _ _ (hv1 ▸ hi6)

/-- Witness for C9 at the concrete rest-to-rest segments. -/
theorem C9_witness :
    ((interp_cubic acc_r0 acc_r1 acc_r1.time_from_start).positions = acc_r1.positions ∧
     (interp_cubic acc_r0 acc_r1 acc_r1.time_from_start).velocities = acc_r1.velocities ∧
     (interp_cubic acc_r1 acc_r2 acc_r1.time_from_start).positions = acc_r1.positions ∧
     (interp_cubic acc_r1 acc_r2 acc_r1.time_from_start).velocities = acc_r1.velocities) ∧
    (interp_cubic acc_r0 acc_r1 acc_r1.time_from_start).accelerations ≠
      (interp_cubic acc_r1 acc_r2 acc_r1.time_from_start).accelerations :=
  C9_boundary_continuity acc_r0 acc_r1 acc_r2 (by decide) (by decide)
    (by decide) (by decide) (by decide)


/-- C2: whenever on_goal accepts a goal while another goal is active, the
installed trajectory's first waypoint is exactly the sample of the
previously active trajectory at now - traj_t0 with its time_from_start
forced to 0; the remaining waypoints are the (reordered) new goal's
points; traj_t0 is reset to now; and the installed trajectory is the new
active goal — so the new trajectory starts at the pre-replacement
setpoint. -/
theorem C2_replacement_splices_current_setpoint (robot : Option Unit)
    (mv : ℚ) (s : FollowerState) (g : JointTrajectory) (now : ℚ)
    (prev : JointTrajectory) (sp : JointTrajectoryPoint) (s1 : FollowerState)
    (hactive : s.goal_handle = some prev)
    (hsp : sample_traj s.traj (now - s.traj_t0) = some sp)
    (hacc : on_goal robot mv s g now = some (.accepted, s1)) :
    s1.traj.points.head? = some { sp with time_from_start := 0 } ∧
    s1.traj_t0 = now ∧
    s1.goal_handle = some s1.traj ∧
    s1.traj.points.tail = (reorder_traj_joints g joint_names).points := by
  rw [on_goal] at hacc
  split_ifs at hacc with h1 h2 h3 h4 h5
  · simp at hacc
  · simp at hacc
  · simp at hacc
  · simp at hacc
  · simp at hacc
  · rw [on_goal_locked, hactive, hsp] at hacc
    simp only [Option.some.injEq, Prod.mk.injEq, true_and] at hacc
    obtain ⟨-, rfl⟩ := hacc
    exact ⟨rfl, rfl, rfl, rfl⟩

/-- Witness for C2: ex_goal replaces the active goal of ex_active_state
at time 1. -/
theorem C2_witness :
    ex_accepted_state.traj.points.head? =
      some { hold_point with time_from_start := 0 } ∧
    ex_accepted_state.traj_t0 = 1 ∧
    ex_accepted_state.goal_handle = some ex_accepted_state.traj ∧
    ex_accepted_state.traj.points.tail =
      (reorder_traj_joints ex_goal joint_names).points :=
  C2_replacement_splices_current_setpoint none MAX_VELOCITY ex_active_state
    ex_goal 1 ex_prev_goal hold_point ex_accepted_state rfl (by decide) (by decide)

/-- C3: canceling the currently active goal replaces the active
trajectory with exactly two waypoints — point0, the sample of the old
trajectory at cancel time with time_from_start 0, and point1, the sample
half a second ahead with velocities and accelerations forced to zero and
time_from_start STOP_DURATION (0.5 s) — and clears the goal, anchoring
the stop trajectory at the cancel instant. -/
theorem C3_cancel_installs_two_point_stop (s : FollowerState) (now : ℚ)
    (sp0 sp1 : JointTrajectoryPoint) (s1 : FollowerState)
    (h0 : sample_traj s.traj (now - s.traj_t0) = some sp0)
    (h1 : sample_traj s.traj (now - s.traj_t0 + STOP_DURATION) = some sp1)
    (hc : on_cancel s true now = some s1) :
    s1.traj.points =
      [{ sp0 with time_from_start := 0 },
       { sp1 with velocities := List.replicate 6 0,
                  accelerations := List.replicate 6 0,
                  time_from_start := STOP_DURATION }] ∧
    s1.goal_handle = none ∧ s1.traj_t0 = now := by
  rw [on_cancel, if_pos rfl, on_cancel_active, h0, h1] at hc
  simp only [Option.some.injEq] at hc
  obtain rfl := hc.symm
  exact ⟨rfl, rfl, rfl⟩

/-- Witness for C3: canceling the active goal of ex_active_state at
time 1. -/
theorem C3_witness :
    ex_canceled_state.traj.points =
      [{ hold_point with time_from_start := 0 },
       { hold_point with velocities := List.replicate 6 0,
                         accelerations := List.replicate 6 0,
                         time_from_start := STOP_DURATION }] ∧
    ex_canceled_state.goal_handle = none ∧ ex_canceled_state.traj_t0 = 1 :=
  C3_cancel_installs_two_point_stop ex_active_state 1 hold_point hold_point
    ex_canceled_state (by decide) (by decide) (by decide)

end AuboDriver
